import Mathlib

/-!
Shallow embedding of the SOS alert propagation and synchronization engine of
the SafeRoute frontend:

* `src/src/hooks/useMeshNetwork.ts` — the propagation engine
  (`handleIncomingMessage`, `relayMessage`, `sendSOS`, `checkForSharedSOS`,
  `syncToBackend`) with browser `localStorage` modelled as an explicit
  `Storage` record and `BroadcastChannel.postMessage` calls collected in an
  output list.
* `src/local-relay.cjs` — the relay hub, modelled as a step function over an
  explicit server state (connected client set, SOS history) driven by
  connection / disconnection / message events.
* `src/src/hooks/useLocalRelay.ts` — the relay-hub client adapter's `sendSOS`.

JavaScript numbers that only ever hold non-negative integers (timestamps, hop
counts) are modelled as `Nat`; JSON-serialized values stored in `localStorage`
are modelled by the deserialized value itself (`JSON.stringify`/`JSON.parse`
round-trip), with `Option` capturing key absence (`getItem` returning `null`).
-/

/-- A latitude/longitude pair.  The engine never computes with the
coordinates, so they are kept as integers. -/
structure Location where
  lat : Int
  lng : Int
deriving DecidableEq, Repr

/-- `'high' | 'medium' | 'low'` priority of an alert. -/
inductive Priority
  | high
  | medium
  | low
deriving DecidableEq, Repr

/-- The `P2PSOSMessage` interface of `useMeshNetwork.ts`. -/
structure P2PSOSMessage where
  id : String
  senderId : String
  senderName : Option String := none
  timestamp : Nat
  location : Option Location := none
  message : String
  priority : Priority
  hops : Nat
  originDevice : String
deriving DecidableEq, Repr

/-- The `PeerInfo` interface of `useMeshNetwork.ts`. -/
structure PeerInfo where
  id : String
  name : Option String := none
  connected : Bool
  lastSeen : Nat
deriving DecidableEq, Repr

/-- The pieces of `MeshNetworkState` that the propagation logic reads and
writes (`deviceId`, `peers`, and the two queues). -/
structure MeshState where
  deviceId : String
  peers : List PeerInfo
  pendingMessages : List P2PSOSMessage
  receivedMessages : List P2PSOSMessage
deriving DecidableEq, Repr

/-- The `localStorage` keys used by `useMeshNetwork.ts`
(`mesh_pending_sos`, `mesh_received_sos`, `mesh_shared_sos`); `none` models an
absent key. -/
structure Storage where
  pending : Option (List P2PSOSMessage) := none
  received : Option (List P2PSOSMessage) := none
  shared : Option (List P2PSOSMessage) := none
deriving DecidableEq, Repr

/-- A message posted on the `saferoute_mesh` `BroadcastChannel`. -/
inductive ChannelMsg
  | peerAnnounce (deviceId : String) (timestamp : Nat)
  | sosBroadcast (payload : P2PSOSMessage)
  | peerConnectRequest (fromId toId : String)
deriving DecidableEq, Repr

/-- The hop limit: `relayMessage` bails out with `if (message.hops > 5) return`,
and the spec names the literal `5` `MAX_HOPS`. -/
def MAX_HOPS : Nat := 5

/-- Result of a handler of `useMeshNetwork.ts`: the updated React state, the
updated `localStorage`, and the `BroadcastChannel.postMessage` calls it made,
in order. -/
structure HandleResult where
  state : MeshState
  storage : Storage
  sent : List ChannelMsg
deriving DecidableEq, Repr

/-- `handleIncomingMessage` of `useMeshNetwork.ts` (lines 144-180): the
`BroadcastChannel` `onmessage` handler.  `PEER_ANNOUNCE` records an unknown
peer; `SOS_BROADCAST` dedups on `id` and otherwise appends the payload with
`hops` incremented by 1 to `receivedMessages`, persisting the new queue.
Neither branch posts any message on the channel. -/
def handleIncomingMessage (s : MeshState) (st : Storage) (data : ChannelMsg) :
    HandleResult :=
  match data with
  | .peerAnnounce did ts =>
      if s.peers.any (fun p => p.id == did) || did == s.deviceId then
        ⟨s, st, []⟩
      else
        ⟨{ s with peers := s.peers ++ [{ id := did, connected := true, lastSeen := ts }] },
         st, []⟩
  | .sosBroadcast m =>
      if s.receivedMessages.any (fun r => r.id == m.id) then
        ⟨s, st, []⟩
      else
        let newReceived := s.receivedMessages ++ [{ m with hops := m.hops + 1 }]
        ⟨{ s with receivedMessages := newReceived },
         { st with received := some newReceived }, []⟩
  | .peerConnectRequest _ _ => ⟨s, st, []⟩

/-- `relayMessage` of `useMeshNetwork.ts` (lines 183-206): drops the message
when `hops > 5`, otherwise posts a `SOS_BROADCAST` on the channel and, if the
id is not yet in shared storage, appends it there keeping only the last 20
entries (`slice(-20)`). -/
def relayMessage (st : Storage) (m : P2PSOSMessage) : Storage × List ChannelMsg :=
  if m.hops > MAX_HOPS then (st, [])
  else
    let out := [ChannelMsg.sosBroadcast m]
    let messages := st.shared.getD []
    if messages.any (fun x => x.id == m.id) then (st, out)
    else
      let appended := messages ++ [m]
      let trimmed := appended.drop (appended.length - 20)
      ({ st with shared := some trimmed }, out)

/-- Result of `sendSOS`: the handler effects plus the created alert, which the
function returns to its caller. -/
structure SendResult where
  state : MeshState
  storage : Storage
  sent : List ChannelMsg
  alert : P2PSOSMessage
deriving DecidableEq, Repr

/-- `sendSOS` of `useMeshNetwork.ts` (lines 209-232): builds the alert
(`hops = 0`, `senderId = originDevice = deviceId`, priority `'high'`, default
text when `message` is absent or empty — JavaScript `message || '...'`),
appends it to `pendingMessages`, persists the queue, then calls
`relayMessage` on it, and returns it. -/
def sendSOS (s : MeshState) (st : Storage) (now : Nat) (location : Option Location)
    (message : Option String) : SendResult :=
  let sosMessage : P2PSOSMessage :=
    { id := "sos-" ++ toString now ++ "-" ++ s.deviceId
      senderId := s.deviceId
      timestamp := now
      location := location
      message := match message with
        | none => "Emergency SOS - Need immediate assistance!"
        | some t => if t == "" then "Emergency SOS - Need immediate assistance!" else t
      priority := .high
      hops := 0
      originDevice := s.deviceId }
  let newPending := s.pendingMessages ++ [sosMessage]
  let s1 := { s with pendingMessages := newPending }
  let st1 := { st with pending := some newPending }
  let (st2, out) := relayMessage st1 sosMessage
  ⟨s1, st2, out, sosMessage⟩

/-- `checkForSharedSOS` of `useMeshNetwork.ts` (lines 115-141): reads shared
storage, keeps the messages not authored by this device and whose id is not
yet in `receivedMessages`, and (only when that filter is non-empty) appends
them to `receivedMessages` and persists the new queue. -/
def checkForSharedSOS (s : MeshState) (st : Storage) (myDeviceId : String) :
    MeshState × Storage :=
  match st.shared with
  | none => (s, st)
  | some messages =>
    let newMessages := messages.filter (fun msg =>
      msg.senderId != myDeviceId &&
      !(s.receivedMessages.any (fun r => r.id == msg.id)))
    if newMessages.length > 0 then
      let updated := s.receivedMessages ++ newMessages
      ({ s with receivedMessages := updated }, { st with received := some updated })
    else (s, st)

/-- Result of `syncToBackend`: the updated state and storage, the batch
submitted to `POST /sos/bulk-sync` (`none` when no request was issued), and
the `{synced}` return value. -/
structure SyncResult where
  state : MeshState
  storage : Storage
  submitted : Option (List P2PSOSMessage)
  synced : Nat
deriving DecidableEq, Repr

/-- `syncToBackend` of `useMeshNetwork.ts` (lines 266-297): concatenates
`pendingMessages ++ receivedMessages`; if empty, returns `{synced: 0}` without
issuing a request.  Otherwise submits the batch; `backendOk` models
`response.ok` (`false` also covers `fetch` throwing).  On success both queues
are emptied and all three storage keys removed, returning the batch length;
otherwise state and storage are untouched and `{synced: 0}` is returned. -/
def syncToBackend (s : MeshState) (st : Storage) (backendOk : Bool) : SyncResult :=
  let allMessages := s.pendingMessages ++ s.receivedMessages
  if allMessages.length == 0 then ⟨s, st, none, 0⟩
  else if backendOk then
    ⟨{ s with pendingMessages := [], receivedMessages := [] },
     { pending := none, received := none, shared := none },
     some allMessages, allMessages.length⟩
  else ⟨s, st, some allMessages, 0⟩

/-- Number of entries of `l` carrying the id `i`. -/
def countId (l : List P2PSOSMessage) (i : String) : Nat :=
  (l.filter (fun m => m.id == i)).length

/-! ## Relay hub (`src/local-relay.cjs`) -/

/-- The `data` field of an `SOS` wire message: the `SOSMessage` shape of
`useLocalRelay.ts`.  The hub itself never inspects it. -/
structure SOSData where
  id : String
  senderId : String
  timestamp : Nat
  location : Option Location := none
  message : String
deriving DecidableEq, Repr

/-- A parsed client frame as seen by the hub's `ws.on('message')` handler:
a `{type:'SOS', data}` envelope, a well-formed frame with any other `type`
(ignored), or an unparseable frame (`JSON.parse` throws; caught and
dropped). -/
inductive ClientFrame
  | sos (data : SOSData)
  | otherType
  | malformed
deriving DecidableEq, Repr

/-- A client socket tracked in the hub's `clients` set: its identity and
whether `readyState === WebSocket.OPEN`. -/
structure Client where
  cid : Nat
  isOpen : Bool
deriving DecidableEq, Repr

/-- The hub's mutable state: the `clients` set (kept in insertion order, as a
JavaScript `Set` iterates) and the `sosMessages` history array. -/
structure HubState where
  clients : List Client
  sosMessages : List SOSData
deriving DecidableEq, Repr

/-- The hub at process start: no clients, empty history. -/
def hubInit : HubState := ⟨[], []⟩

/-- A frame the hub writes to one client socket. -/
inductive HubOut
  | sosBroadcast (toCid : Nat) (data : SOSData)
  | sosHistory (toCid : Nat) (messages : List SOSData)
deriving DecidableEq, Repr

/-- Destination socket of a hub output frame. -/
def HubOut.dest : HubOut → Nat
  | .sosBroadcast c _ => c
  | .sosHistory c _ => c

/-- The body of `ws.on('message')` in `local-relay.cjs` (lines 53-73): on an
`SOS` frame, push `message.data` onto `sosMessages` and send a
`SOS_BROADCAST` with the same payload to every client in the set other than
the sender whose `readyState` is `OPEN`; other frame types and parse errors
leave everything untouched. -/
def handleClientMessage (st : HubState) (sender : Nat) (frame : ClientFrame) :
    HubState × List HubOut :=
  match frame with
  | .sos data =>
      ({ st with sosMessages := st.sosMessages ++ [data] },
       (st.clients.filter (fun c => c.cid != sender && c.isOpen)).map
         (fun c => HubOut.sosBroadcast c.cid data))
  | .otherType => (st, [])
  | .malformed => (st, [])

/-- An event the hub's single-threaded event loop processes: a WebSocket
connection (`wss.on('connection')`), a socket close (`ws.on('close')`), or a
frame arriving from a connected socket. -/
inductive HubEvent
  | connect (cid : Nat)
  | close (cid : Nat)
  | message (sender : Nat) (frame : ClientFrame)
deriving DecidableEq, Repr

/-- One iteration of the hub's event loop.  `connect` adds the (open) socket
to the set and, when the history is non-empty, sends it a `SOS_HISTORY` frame;
`close` removes the socket; a frame is handled by `handleClientMessage`. -/
def hubStep (st : HubState) (e : HubEvent) : HubState × List HubOut :=
  match e with
  | .connect cid =>
      ({ st with clients := st.clients ++ [⟨cid, true⟩] },
       if st.sosMessages.length > 0 then [HubOut.sosHistory cid st.sosMessages] else [])
  | .close cid =>
      ({ st with clients := st.clients.filter (fun c => c.cid != cid) }, [])
  | .message sender frame => handleClientMessage st sender frame

/-- The hub state after processing a sequence of events from process start. -/
def hubRun (evs : List HubEvent) : HubState :=
  evs.foldl (fun st e => (hubStep st e).1) hubInit

/-- The JSON body of the `/health` response. -/
structure HealthBody where
  status : String
  clients : Nat
  sos_count : Nat
deriving DecidableEq, Repr

/-- The `GET /health` branch of the HTTP handler (lines 25-29): always
`200` with `{status:'ok', clients: clients.size, sos_count: sosMessages.length}`. -/
def healthResponse (st : HubState) : Nat × HealthBody :=
  (200, ⟨"ok", st.clients.length, st.sosMessages.length⟩)

/-- The `GET /sos` branch of the HTTP handler (lines 31-35): `200` with the
full history. -/
def sosResponse (st : HubState) : Nat × List SOSData :=
  (200, st.sosMessages)

/-- Number of accepted `SOS` messages in an event sequence: frames of type
`SOS` that parsed successfully. -/
def countAcceptedSOS (evs : List HubEvent) : Nat :=
  (evs.filter (fun e => match e with
    | .message _ (.sos _) => true
    | _ => false)).length

/-! ## Relay-hub client adapter (`src/src/hooks/useLocalRelay.ts`) -/

/-- `WebSocket.readyState` values. -/
inductive WsReadyState
  | connecting
  | wsOpen
  | closing
  | closed
deriving DecidableEq, Repr

/-- The `LocalRelayState` of `useLocalRelay.ts`. -/
structure LocalRelayState where
  connected : Bool
  deviceCount : Nat
  receivedSOS : List SOSData
  lastError : Option String
deriving DecidableEq, Repr

/-- A frame the adapter writes to its socket: the `{type:'SOS', data}`
envelope. -/
inductive RelayClientFrame
  | sos (data : SOSData)
deriving DecidableEq, Repr

/-- Result of the adapter's `sendSOS`: the (unchanged) hook state, the frames
written to the socket, and the boolean return value. -/
structure RelaySendResult where
  state : LocalRelayState
  sent : List RelayClientFrame
  returned : Bool
deriving DecidableEq, Repr

/-- `sendSOS` of `useLocalRelay.ts` (lines 118-150): if `wsRef.current` is
null or its `readyState` is not `OPEN`, log a warning and return `false`
without transmitting or queueing anything.  Otherwise build the `SOSMessage`
(`geo` models the geolocation callback's outcome: the position on success,
`none` on error/timeout) and send one `{type:'SOS', data}` frame, returning
`true`.  The hook state is never touched. -/
def relaySendSOS (s : LocalRelayState) (ws : Option WsReadyState)
    (storedDeviceId : Option String) (now : Nat) (rand : String)
    (geo : Option Location) (message : Option String) : RelaySendResult :=
  match ws with
  | none => ⟨s, [], false⟩
  | some rs =>
    if rs != WsReadyState.wsOpen then ⟨s, [], false⟩
    else
      let sosData : SOSData :=
        { id := "sos-" ++ toString now ++ "-" ++ rand
          senderId := storedDeviceId.getD "unknown"
          timestamp := now
          location := geo
          message := match message with
            | none => "EMERGENCY! Need immediate help!"
            | some t => if t == "" then "EMERGENCY! Need immediate help!" else t }
      ⟨s, [RelayClientFrame.sos sosData], true⟩

/-! ## Concrete sample values used by witnesses and counterexamples -/

/-- Empty `localStorage`. -/
def emptyStorage : Storage := ⟨none, none, none⟩

/-- A sample alert with a given hop count. -/
def sampleMsg (h : Nat) : P2PSOSMessage :=
  { id := "sos-1-SR-A", senderId := "SR-A", timestamp := 1,
    message := "help", priority := .high, hops := h, originDevice := "SR-A" }

/-- A sample wire payload. -/
def sampleData : SOSData :=
  { id := "sos-1-ab", senderId := "SR-A", timestamp := 1, message := "help" }

/-- Three open clients connected to the hub. -/
def threeClients : List Client := [⟨0, true⟩, ⟨1, true⟩, ⟨2, true⟩]

/-! ## Helper lemmas -/

theorem countId_append (a b : List P2PSOSMessage) (i : String) :
    countId (a ++ b) i = countId a i + countId b i := by
  simp [countId, List.filter_append]

/-! ## Claim theorems -/

/-- C5: `sendSOS` always constructs an alert with `hops = 0`,
`senderId = originDevice = deviceId`, priority `high`, appends it to
`pendingMessages`, persists the new pending queue, posts exactly one
`SOS_BROADCAST` carrying the alert, leaves `receivedMessages` alone, and
returns the alert. -/
theorem sendSOS_spec (s : MeshState) (st : Storage) (now : Nat)
    (location : Option Location) (message : Option String) :
    (sendSOS s st now location message).alert.hops = 0 ∧
    (sendSOS s st now location message).alert.senderId = s.deviceId ∧
    (sendSOS s st now location message).alert.originDevice = s.deviceId ∧
    (sendSOS s st now location message).alert.priority = Priority.high ∧
    (sendSOS s st now location message).state.pendingMessages =
      s.pendingMessages ++ [(sendSOS s st now location message).alert] ∧
    (sendSOS s st now location message).state.receivedMessages = s.receivedMessages ∧
    (sendSOS s st now location message).storage.pending =
      some (s.pendingMessages ++ [(sendSOS s st now location message).alert]) ∧
    (sendSOS s st now location message).sent =
      [ChannelMsg.sosBroadcast (sendSOS s st now location message).alert] := by
  simp only [sendSOS, relayMessage, MAX_HOPS]
  norm_num
  split <;> simp

/-- C9: the relay-hub client adapter's `sendSOS`, invoked while the socket is
absent or not `OPEN`, transmits nothing, leaves the hook state untouched, and
returns `false`. -/
theorem relaySendSOS_disconnected (s : LocalRelayState) (ws : Option WsReadyState)
    (storedDeviceId : Option String) (now : Nat) (rand : String)
    (geo : Option Location) (message : Option String)
    (h : ws ≠ some WsReadyState.wsOpen) :
    relaySendSOS s ws storedDeviceId now rand geo message = ⟨s, [], false⟩ := by
  match ws with
  | none => rfl
  | some rs =>
      have hne : rs ≠ WsReadyState.wsOpen := fun hrs => h (by rw [hrs])
      simp [relaySendSOS, hne]

/-- C9 witness: a concrete disconnected send is a silent no-op. -/
theorem relaySendSOS_disconnected_witness :
    (none ≠ some WsReadyState.wsOpen) ∧
    relaySendSOS ⟨false, 0, [], none⟩ none (some "SR-A") 1 "ab" none none =
      ⟨⟨false, 0, [], none⟩, [], false⟩ :=
  ⟨by decide, relaySendSOS_disconnected ⟨false, 0, [], none⟩ none (some "SR-A") 1 "ab"
    none none (by decide)⟩

/-- C10: the shared-storage poll never imports an alert authored by this
device: the entries of `receivedMessages` whose `senderId` is the local device
id are exactly the same before and after `checkForSharedSOS`. -/
theorem checkForSharedSOS_no_self_import (s : MeshState) (st : Storage)
    (myDeviceId : String) :
    ((checkForSharedSOS s st myDeviceId).1.receivedMessages.filter
        (fun m => m.senderId == myDeviceId)) =
      s.receivedMessages.filter (fun m => m.senderId == myDeviceId) := by
  unfold checkForSharedSOS
  match hsh : st.shared with
  | none => rfl
  | some messages =>
      simp only []
      split
      · simp only [List.filter_append, List.filter_filter]
        have hnil : (messages.filter (fun msg =>
            (msg.senderId == myDeviceId) &&
            (msg.senderId != myDeviceId &&
              !(s.receivedMessages.any (fun r => r.id == msg.id))))) = [] := by
          apply List.filter_eq_nil_iff.mpr
          intro a _
          simp only [Bool.and_eq_true, bne_iff_ne, beq_iff_eq, Bool.not_eq_true]
          rintro ⟨he, hne, -⟩
          exact hne he
        rw [hnil, List.append_nil]
      · rfl

/-- C2 counterexample: at `hops = 5` we have `hops + 1 > MAX_HOPS`, yet
`relayMessage` does relay (the guard is `hops > 5`, strict): the claim that no
relay occurs when `hopCount + 1 > MAX_HOPS` is false. -/
theorem relayMessage_relays_at_hops_five :
    (sampleMsg 5).hops + 1 > MAX_HOPS ∧
    (relayMessage emptyStorage (sampleMsg 5)).2 =
      [ChannelMsg.sosBroadcast (sampleMsg 5)] := by
  decide

/-- C2 amended: no relay occurs once `hopCount > MAX_HOPS` (5): `relayMessage`
then leaves storage untouched and posts nothing. -/
theorem relayMessage_no_relay_above_max_hops (st : Storage) (m : P2PSOSMessage)
    (h : m.hops > MAX_HOPS) : relayMessage st m = (st, []) := by
  unfold relayMessage
  rw [if_pos h]

/-- C2 amended witness: a concrete alert at `hops = 6` is not relayed. -/
theorem relayMessage_no_relay_above_max_hops_witness :
    (sampleMsg 6).hops > MAX_HOPS ∧
    relayMessage emptyStorage (sampleMsg 6) = (emptyStorage, []) :=
  ⟨by decide, relayMessage_no_relay_above_max_hops emptyStorage (sampleMsg 6) (by decide)⟩

/-- C1 counterexample: a fresh alert (`id` not in `receivedMessages`) with
`hops + 1 ≤ MAX_HOPS` arrives via `SOS_BROADCAST`, yet `handleIncomingMessage`
posts nothing on the channel: the incremented copy is stored but never
rebroadcast, so the claimed flood-style onward relay does not happen. -/
theorem handleIncoming_no_rebroadcast_counterexample :
    countId (MeshState.receivedMessages ⟨"SR-B", [], [], []⟩) (sampleMsg 0).id = 0 ∧
    (sampleMsg 0).hops + 1 ≤ MAX_HOPS ∧
    (handleIncomingMessage ⟨"SR-B", [], [], []⟩ emptyStorage
      (ChannelMsg.sosBroadcast (sampleMsg 0))).sent = [] := by
  decide

/-- C1 amended: on a `SOS_BROADCAST` whose `id` is not yet in
`receivedMessages`, the engine appends a copy with `hops` incremented by
exactly 1 to `receivedMessages` and persists the new queue, but does not
broadcast anything onward; onward broadcast happens only from `sendSOS`. -/
theorem handleIncoming_stores_increments_no_rebroadcast (s : MeshState)
    (st : Storage) (m : P2PSOSMessage)
    (h : s.receivedMessages.any (fun r => r.id == m.id) = false) :
    handleIncomingMessage s st (ChannelMsg.sosBroadcast m) =
      ⟨{ s with receivedMessages :=
           s.receivedMessages ++ [{ m with hops := m.hops + 1 }] },
       { st with received := some (s.receivedMessages ++ [{ m with hops := m.hops + 1 }]) },
       []⟩ := by
  simp [handleIncomingMessage, h]

/-- C1 amended witness: a concrete fresh alert is stored with `hops` bumped
from 0 to 1 and nothing is posted on the channel. -/
theorem handleIncoming_stores_increments_no_rebroadcast_witness :
    ((MeshState.receivedMessages ⟨"SR-B", [], [], []⟩).any
        (fun r => r.id == (sampleMsg 0).id) = false) ∧
    handleIncomingMessage ⟨"SR-B", [], [], []⟩ emptyStorage
        (ChannelMsg.sosBroadcast (sampleMsg 0)) =
      ⟨⟨"SR-B", [], [], [sampleMsg 1]⟩,
       { emptyStorage with received := some [sampleMsg 1] }, []⟩ := by
  refine ⟨by decide, ?_⟩
  have h := handleIncoming_stores_increments_no_rebroadcast ⟨"SR-B", [], [], []⟩
    emptyStorage (sampleMsg 0) (by decide)
  rw [h]
  decide

/-- If no entry of `l` carries id `i`, the `any` dedup probe is `false`. -/
theorem countId_zero_any_false {l : List P2PSOSMessage} {i : String}
    (h : countId l i = 0) : l.any (fun r => r.id == i) = false := by
  simp only [countId, List.length_eq_zero, List.filter_eq_nil_iff] at h
  simp only [List.any_eq_false]
  exact h

/-- The fresh-id branch of `handleIncomingMessage` on `SOS_BROADCAST`:
append the `hops + 1` copy, persist, post nothing. -/
theorem handleIncomingMessage_sos_fresh (s : MeshState) (st : Storage)
    (m : P2PSOSMessage)
    (h : s.receivedMessages.any (fun r => r.id == m.id) = false) :
    handleIncomingMessage s st (ChannelMsg.sosBroadcast m) =
      ⟨{ s with receivedMessages :=
           s.receivedMessages ++ [{ m with hops := m.hops + 1 }] },
       { st with received := some (s.receivedMessages ++ [{ m with hops := m.hops + 1 }]) },
       []⟩ := by
  simp [handleIncomingMessage, h]

/-- The duplicate-id branch of `handleIncomingMessage` on `SOS_BROADCAST`:
everything is left untouched and nothing is posted. -/
theorem handleIncomingMessage_sos_dup (s : MeshState) (st : Storage)
    (m : P2PSOSMessage)
    (h : s.receivedMessages.any (fun r => r.id == m.id) = true) :
    handleIncomingMessage s st (ChannelMsg.sosBroadcast m) = ⟨s, st, []⟩ := by
  simp [handleIncomingMessage, h]

/-- Messages surviving the `checkForSharedSOS` filter all have ids distinct
from any id already present in the reference queue `acc`. -/
theorem countId_sharedFilter_zero (l acc : List P2PSOSMessage) (i did : String)
    (hin : acc.any (fun r => r.id == i) = true) :
    countId (l.filter (fun msg =>
      msg.senderId != did && !(acc.any (fun r => r.id == msg.id)))) i = 0 := by
  rw [countId, List.length_eq_zero, List.filter_filter, List.filter_eq_nil_iff]
  intro a _
  simp only [Bool.and_eq_true, Bool.not_eq_true, beq_iff_eq, bne_iff_ne]
  rintro ⟨hid, -, hany⟩
  rw [hid] at hany
  rw [hin] at hany
  cases hany

/-- C3: delivering an alert id twice leaves exactly one entry with that id in
`receivedMessages`: after the first delivery the count is 1, a second delivery
through `handleIncomingMessage` returns state and storage unchanged (and posts
nothing), and a shared-storage poll (`checkForSharedSOS`) with any shared
contents and any device id also leaves exactly one entry with that id. -/
theorem handleIncoming_dedup_idempotent (s : MeshState) (st : Storage)
    (m : P2PSOSMessage) (h : countId s.receivedMessages m.id = 0) :
    countId (handleIncomingMessage s st
        (ChannelMsg.sosBroadcast m)).state.receivedMessages m.id = 1 ∧
    handleIncomingMessage (handleIncomingMessage s st (ChannelMsg.sosBroadcast m)).state
        (handleIncomingMessage s st (ChannelMsg.sosBroadcast m)).storage
        (ChannelMsg.sosBroadcast m) =
      ⟨(handleIncomingMessage s st (ChannelMsg.sosBroadcast m)).state,
       (handleIncomingMessage s st (ChannelMsg.sosBroadcast m)).storage, []⟩ ∧
    ∀ st2 : Storage, ∀ myId : String,
      countId (checkForSharedSOS
          (handleIncomingMessage s st (ChannelMsg.sosBroadcast m)).state
          st2 myId).1.receivedMessages m.id = 1 := by
  have hfresh := countId_zero_any_false h
  have e1 := handleIncomingMessage_sos_fresh s st m hfresh
  have hone : countId (s.receivedMessages ++ [{ m with hops := m.hops + 1 }]) m.id = 1 := by
    rw [countId_append, h]
    simp [countId]
  have hdup : (s.receivedMessages ++ [{ m with hops := m.hops + 1 }]).any
      (fun r => r.id == m.id) = true := by
    simp [List.any_append]
  refine ⟨by rw [e1]; exact hone, ?_, ?_⟩
  · rw [e1]
    exact handleIncomingMessage_sos_dup _ _ m hdup
  · intro st2 myId
    rw [e1]
    show countId (checkForSharedSOS
      ⟨s.deviceId, s.peers, s.pendingMessages,
        s.receivedMessages ++ [{ m with hops := m.hops + 1 }]⟩ st2 myId).1.receivedMessages
      m.id = 1
    unfold checkForSharedSOS
    match hsh : st2.shared with
    | none => exact hone
    | some messages =>
        simp only []
        split
        · rw [countId_append, hone, countId_sharedFilter_zero _ _ _ _ hdup]
        · exact hone

/-- C3 witness: a concrete double delivery of the same alert id. -/
theorem handleIncoming_dedup_idempotent_witness :
    countId (MeshState.receivedMessages ⟨"SR-B", [], [], []⟩) (sampleMsg 0).id = 0 ∧
    countId (handleIncomingMessage ⟨"SR-B", [], [], []⟩ emptyStorage
        (ChannelMsg.sosBroadcast (sampleMsg 0))).state.receivedMessages (sampleMsg 0).id = 1 :=
  ⟨by decide,
   (handleIncoming_dedup_idempotent ⟨"SR-B", [], [], []⟩ emptyStorage (sampleMsg 0)
      (by decide)).1⟩

/-- With an empty union of queues, `syncToBackend` is a no-op returning 0
regardless of the backend, and no request is issued. -/
theorem syncToBackend_empty_case (s : MeshState) (st : Storage)
    (h : s.pendingMessages ++ s.receivedMessages = []) (ok : Bool) :
    syncToBackend s st ok = ⟨s, st, none, 0⟩ := by
  simp [syncToBackend, h]

/-- With a non-empty union and an accepting backend, `syncToBackend` clears
both queues and all persisted keys and reports the batch length. -/
theorem syncToBackend_success_case (s : MeshState) (st : Storage)
    (h : s.pendingMessages ++ s.receivedMessages ≠ []) :
    syncToBackend s st true =
      ⟨{ s with pendingMessages := [], receivedMessages := [] },
       ⟨none, none, none⟩, some (s.pendingMessages ++ s.receivedMessages),
       (s.pendingMessages ++ s.receivedMessages).length⟩ := by
  have himp : s.pendingMessages = [] → ¬s.receivedMessages = [] := fun hp hr =>
    h (by rw [hp, hr]; rfl)
  simp [syncToBackend]
  exact himp

/-- With a non-empty union and a failing backend, `syncToBackend` leaves
state and storage untouched and reports 0. -/
theorem syncToBackend_failure_case (s : MeshState) (st : Storage)
    (h : s.pendingMessages ++ s.receivedMessages ≠ []) :
    syncToBackend s st false =
      ⟨s, st, some (s.pendingMessages ++ s.receivedMessages), 0⟩ := by
  have himp : s.pendingMessages = [] → ¬s.receivedMessages = [] := fun hp hr =>
    h (by rw [hp, hr]; rfl)
  simp [syncToBackend]
  exact himp

/-- C4: `syncToBackend` submits `pending ++ received` as one batch; an empty
union returns `{synced: 0}` with no request; on success both queues and all
persisted copies are cleared and the batch length is returned; on failure
state and storage are untouched and `{synced: 0}` is returned; and a second
flush right after a successful one issues no request, returns `{synced: 0}`,
and finds both queues empty. -/
theorem syncToBackend_spec (s : MeshState) (st : Storage) :
    (s.pendingMessages ++ s.receivedMessages = [] →
      ∀ ok : Bool, syncToBackend s st ok = ⟨s, st, none, 0⟩) ∧
    (s.pendingMessages ++ s.receivedMessages ≠ [] →
      syncToBackend s st true =
        ⟨{ s with pendingMessages := [], receivedMessages := [] },
         ⟨none, none, none⟩, some (s.pendingMessages ++ s.receivedMessages),
         (s.pendingMessages ++ s.receivedMessages).length⟩ ∧
      syncToBackend s st false =
        ⟨s, st, some (s.pendingMessages ++ s.receivedMessages), 0⟩) ∧
    (∀ ok : Bool,
      syncToBackend (syncToBackend s st true).state (syncToBackend s st true).storage ok =
        ⟨(syncToBackend s st true).state, (syncToBackend s st true).storage, none, 0⟩ ∧
      (syncToBackend s st true).state.pendingMessages = [] ∧
      (syncToBackend s st true).state.receivedMessages = []) := by
  refine ⟨fun hemp ok => syncToBackend_empty_case s st hemp ok,
    fun hne => ⟨syncToBackend_success_case s st hne, syncToBackend_failure_case s st hne⟩,
    ?_⟩
  intro ok
  by_cases hemp : s.pendingMessages ++ s.receivedMessages = []
  · rcases List.append_eq_nil.mp hemp with ⟨hp, hr⟩
    rw [syncToBackend_empty_case s st hemp true]
    exact ⟨syncToBackend_empty_case s st hemp ok, hp, hr⟩
  · rw [syncToBackend_success_case s st hemp]
    exact ⟨syncToBackend_empty_case
      { s with pendingMessages := [], receivedMessages := [] }
      ⟨none, none, none⟩ rfl ok, rfl, rfl⟩

/-- C4 witness: one pending alert, a successful flush, then a second flush. -/
theorem syncToBackend_spec_witness :
    ((MeshState.pendingMessages ⟨"SR-A", [], [sampleMsg 0], []⟩) ++
      (MeshState.receivedMessages ⟨"SR-A", [], [sampleMsg 0], []⟩) ≠ []) ∧
    (syncToBackend ⟨"SR-A", [], [sampleMsg 0], []⟩ emptyStorage true =
      ⟨⟨"SR-A", [], [], []⟩, ⟨none, none, none⟩, some [sampleMsg 0], 1⟩ ∧
     syncToBackend ⟨"SR-A", [], [sampleMsg 0], []⟩ emptyStorage false =
      ⟨⟨"SR-A", [], [sampleMsg 0], []⟩, emptyStorage, some [sampleMsg 0], 0⟩) :=
  ⟨by decide,
   (syncToBackend_spec ⟨"SR-A", [], [sampleMsg 0], []⟩ emptyStorage).2.1 (by decide)⟩

/-- Dropping the sender from a client list with pairwise-distinct ids removes
exactly one element when the sender is in the list. -/
theorem clients_filter_ne_length (l : List Client) (a : Nat)
    (hnd : (l.map Client.cid).Nodup) (hmem : a ∈ l.map Client.cid) :
    (l.filter (fun c => c.cid != a)).length = l.length - 1 := by
  induction l with
  | nil => simp at hmem
  | cons x xs ih =>
      rw [List.map_cons, List.nodup_cons] at hnd
      obtain ⟨hx, hndxs⟩ := hnd
      rw [List.map_cons, List.mem_cons] at hmem
      rcases hmem with heq | hin
      · have hxf : (x.cid != a) = false := by simp [heq]
        have hall : xs.filter (fun c => c.cid != a) = xs := by
          apply List.filter_eq_self.mpr
          intro c hc
          have hmemc : c.cid ∈ xs.map Client.cid := List.mem_map_of_mem _ hc
          simp only [bne_iff_ne, ne_eq]
          intro hca
          rw [hca, heq] at hmemc
          exact hx hmemc
        simp [List.filter_cons, hxf, hall]
      · have hxa : (x.cid != a) = true := by
          simp only [bne_iff_ne, ne_eq]
          intro hEq
          exact hx (hEq.symm ▸ hin)
        have hpos : 0 < xs.length := by
          cases xs with
          | nil => simp at hin
          | cons y ys => simp
        simp only [List.filter_cons, hxa, if_true, List.length_cons, ih hndxs hin]
        omega

/-- In a client list with pairwise-distinct ids, a member `c` other than the
sender is matched by exactly one entry of the sender-excluding filter. -/
theorem clients_count_one (l : List Client) (a : Nat) (c : Client)
    (hnd : (l.map Client.cid).Nodup) (hc : c ∈ l) (hne : c.cid ≠ a) :
    (l.filter (fun x => (x.cid == c.cid) && (x.cid != a))).length = 1 := by
  induction l with
  | nil => cases hc
  | cons x xs ih =>
      rw [List.map_cons, List.nodup_cons] at hnd
      obtain ⟨hx, hndxs⟩ := hnd
      rcases List.mem_cons.mp hc with heqc | hin
      · subst heqc
        have h1 : ((c.cid == c.cid) && (c.cid != a)) = true := by simp [hne]
        have hrest : xs.filter (fun y => (y.cid == c.cid) && (y.cid != a)) = [] := by
          apply List.filter_eq_nil_iff.mpr
          intro y hy
          simp only [Bool.and_eq_true, beq_iff_eq, bne_iff_ne, ne_eq, not_and]
          intro hEq
          exact absurd (hEq ▸ List.mem_map_of_mem Client.cid hy) hx
        simp [List.filter_cons, h1, hrest, hne]
      · have hx1 : (x.cid == c.cid) = false := by
          simp only [beq_eq_false_iff_ne, ne_eq]
          intro hEq
          exact hx (hEq.symm ▸ List.mem_map_of_mem Client.cid hin)
        have hPx : ((x.cid == c.cid) && (x.cid != a)) = false := by
          simp [hx1]
        simp only [List.filter_cons, hPx, Bool.false_eq_true, if_false]
        exact ih hndxs hin

/-- C6: an `SOS` frame from sender `a`, with `a` in the client set, all set
members open, and distinct socket ids, appends the payload to the history,
leaves the client set unchanged, produces exactly `N - 1` outgoing frames,
sends none back to `a`, sends only `SOS_BROADCAST` frames carrying the very
same payload, and delivers exactly one frame to every other client. -/
theorem hub_sos_fanout (st : HubState) (a : Nat) (d : SOSData)
    (hmem : a ∈ st.clients.map Client.cid)
    (hopen : ∀ c ∈ st.clients, c.isOpen = true)
    (hnd : (st.clients.map Client.cid).Nodup) :
    (handleClientMessage st a (ClientFrame.sos d)).1.sosMessages =
      st.sosMessages ++ [d] ∧
    (handleClientMessage st a (ClientFrame.sos d)).1.clients = st.clients ∧
    (handleClientMessage st a (ClientFrame.sos d)).2.length = st.clients.length - 1 ∧
    (∀ o ∈ (handleClientMessage st a (ClientFrame.sos d)).2, o.dest ≠ a) ∧
    (∀ o ∈ (handleClientMessage st a (ClientFrame.sos d)).2,
      o = HubOut.sosBroadcast o.dest d) ∧
    (∀ c ∈ st.clients, c.cid ≠ a →
      ((handleClientMessage st a (ClientFrame.sos d)).2.filter
        (fun o => o.dest == c.cid)).length = 1) := by
  have hfe : st.clients.filter (fun c => c.cid != a && c.isOpen) =
      st.clients.filter (fun c => c.cid != a) := by
    apply List.filter_congr
    intro x hx
    rw [hopen x hx, Bool.and_true]
  refine ⟨rfl, rfl, ?_, ?_, ?_, ?_⟩
  · show ((st.clients.filter (fun c => c.cid != a && c.isOpen)).map
      (fun c => HubOut.sosBroadcast c.cid d)).length = st.clients.length - 1
    rw [List.length_map, hfe]
    exact clients_filter_ne_length st.clients a hnd hmem
  · intro o ho
    obtain ⟨c, hcmem, rfl⟩ := List.mem_map.mp ho
    have hpc := (List.mem_filter.mp hcmem).2
    rw [Bool.and_eq_true] at hpc
    exact bne_iff_ne.mp hpc.1
  · intro o ho
    obtain ⟨c, _, rfl⟩ := List.mem_map.mp ho
    rfl
  · intro c hc hcne
    show (((st.clients.filter (fun x => x.cid != a && x.isOpen)).map
        (fun x => HubOut.sosBroadcast x.cid d)).filter
        (fun o => o.dest == c.cid)).length = 1
    rw [hfe, List.filter_map, List.length_map, List.filter_filter]
    exact clients_count_one st.clients a c hnd hc hcne

/-- C6 witness: with three open clients 0, 1, 2, an `SOS` from client 0
yields exactly 2 deliveries, and the payload lands in the history. -/
theorem hub_sos_fanout_witness :
    (0 ∈ threeClients.map Client.cid) ∧
    (handleClientMessage ⟨threeClients, []⟩ 0 (ClientFrame.sos sampleData)).2.length =
      threeClients.length - 1 :=
  ⟨by decide, (hub_sos_fanout ⟨threeClients, []⟩ 0 sampleData (by decide)
      (by decide) (by decide)).2.2.1⟩

/-- Splitting the accepted-SOS count at the head event. -/
theorem countAcceptedSOS_cons (e : HubEvent) (evs : List HubEvent) :
    countAcceptedSOS (e :: evs) = countAcceptedSOS [e] + countAcceptedSOS evs := by
  cases e with
  | connect cid => simp [countAcceptedSOS, List.filter_cons]
  | close cid => simp [countAcceptedSOS, List.filter_cons]
  | message sender frame =>
      cases frame <;> simp [countAcceptedSOS, List.filter_cons]
      omega

/-- Processing events from any hub state grows the history by exactly the
number of accepted `SOS` frames. -/
theorem hubFold_sos_length (evs : List HubEvent) : ∀ st : HubState,
    (evs.foldl (fun s e => (hubStep s e).1) st).sosMessages.length =
      st.sosMessages.length + countAcceptedSOS evs := by
  induction evs with
  | nil =>
      intro st
      simp [countAcceptedSOS]
  | cons e evs ih =>
      intro st
      rw [List.foldl_cons, ih, countAcceptedSOS_cons]
      have hstep : (hubStep st e).1.sosMessages.length =
          st.sosMessages.length + countAcceptedSOS [e] := by
        cases e with
        | connect cid => simp [hubStep, countAcceptedSOS]
        | close cid => simp [hubStep, countAcceptedSOS]
        | message sender frame =>
            cases frame <;> simp [hubStep, handleClientMessage, countAcceptedSOS]
      rw [hstep]
      omega

/-- Every client in the set stays open across any sequence of hub events:
`connect` adds an open socket, `close` removes, message handling never touches
the set's members. -/
theorem hubFold_clients_open (evs : List HubEvent) : ∀ st : HubState,
    (∀ c ∈ st.clients, c.isOpen = true) →
    ∀ c ∈ (evs.foldl (fun s e => (hubStep s e).1) st).clients, c.isOpen = true := by
  induction evs with
  | nil =>
      intro st h
      simpa using h
  | cons e evs ih =>
      intro st h
      rw [List.foldl_cons]
      apply ih
      cases e with
      | connect cid =>
          intro c hc
          simp only [hubStep, List.mem_append, List.mem_singleton] at hc
          rcases hc with hc | rfl
          · exact h c hc
          · rfl
      | close cid =>
          intro c hc
          exact h c (List.mem_filter.mp hc).1
      | message sender frame =>
          cases frame with
          | sos d => intro c hc; exact h c hc
          | otherType => exact h
          | malformed => exact h

/-- C8: after any sequence of hub events, `GET /health` returns status 200,
body status `"ok"`, `clients` equal to the number of currently-open sockets in
the client set, and `sos_count` equal to the cumulative number of accepted
`SOS` messages. -/
theorem health_spec (evs : List HubEvent) :
    (healthResponse (hubRun evs)).1 = 200 ∧
    (healthResponse (hubRun evs)).2.status = "ok" ∧
    (healthResponse (hubRun evs)).2.clients =
      ((hubRun evs).clients.filter (fun c => c.isOpen)).length ∧
    (healthResponse (hubRun evs)).2.sos_count = countAcceptedSOS evs := by
  refine ⟨rfl, rfl, ?_, ?_⟩
  · have hopen : ∀ c ∈ (hubRun evs).clients, c.isOpen = true :=
      hubFold_clients_open evs hubInit (by intro c hc; simp [hubInit] at hc)
    show (hubRun evs).clients.length =
      ((hubRun evs).clients.filter (fun c => c.isOpen)).length
    rw [List.filter_eq_self.mpr hopen]
  · show (hubRun evs).sosMessages.length = countAcceptedSOS evs
    have h := hubFold_sos_length evs hubInit
    simpa [hubRun, hubInit] using h

/-- C7 counterexample: the hub history is not bounded by any constant — for
every candidate bound `N`, a run of `N + 1` accepted `SOS` messages leaves
`N + 1` entries in the history (the code pushes unconditionally and never
drops). -/
theorem hub_history_unbounded :
    ¬ ∃ N : Nat, ∀ evs : List HubEvent,
      (hubRun evs).sosMessages.length ≤ N := by
  rintro ⟨N, h⟩
  have hN := h (List.replicate (N + 1) (HubEvent.message 0 (ClientFrame.sos sampleData)))
  have hlen : (hubRun (List.replicate (N + 1)
      (HubEvent.message 0 (ClientFrame.sos sampleData)))).sosMessages.length = N + 1 := by
    have h1 := hubFold_sos_length
      (List.replicate (N + 1) (HubEvent.message 0 (ClientFrame.sos sampleData))) hubInit
    have h2 : countAcceptedSOS
        (List.replicate (N + 1) (HubEvent.message 0 (ClientFrame.sos sampleData))) = N + 1 := by
      rw [countAcceptedSOS, List.filter_replicate_of_pos (by rfl), List.length_replicate]
    simpa [hubRun, hubInit, h2] using h1
  omega

/-- C7 amended: the hub history is unbounded; after any event sequence its
length equals the cumulative number of accepted `SOS` messages — every
accepted message is appended and none is ever dropped. -/
theorem hubRun_history_length (evs : List HubEvent) :
    (hubRun evs).sosMessages.length = countAcceptedSOS evs := by
  have h := hubFold_sos_length evs hubInit
  simpa [hubRun, hubInit] using h
